import Mathlib

/-!
Shallow embedding of the `advisory-lock` crate (src/src/lib.rs) together with
a model of the pieces it delegates to: the platform lock driver
(`mod unix` / `mod windows`, whose sources are not present) and the standard
library's `OpenOptions::open`, both modelled from the specification at their
interface boundary.
-/

/-- A detail string carried by an `std::io::Error` (its human-readable
description, the only part of it this crate inspects). -/
structure IoError where
  description : String
deriving DecidableEq, Repr

/-- The error enumeration `FileLockError` from src/src/lib.rs: either the file
is already locked by another holder, or an underlying I/O error occurred. -/
inductive FileLockError where
  | AlreadyLocked
  | IOError (err : IoError)
deriving DecidableEq, Repr

/-- The `Display` rendering of `FileLockError` given by its `thiserror`
attributes in src/src/lib.rs. -/
def FileLockError.description : FileLockError → String
  | .AlreadyLocked => "the file is already locked"
  | .IOError e => "I/O error: " ++ e.description

/-- The lock-mode enumeration `FileLockMode` from src/src/lib.rs. -/
inductive FileLockMode where
  | Exclusive
  | Shared
deriving DecidableEq, Repr

/-- Modelled from the spec: shared mode allows multiple simultaneous holders
while exclusive mode conflicts with every other holder; a non-blocking
acquire finds contention exactly when a conflicting mode is already held. -/
def FileLockMode.conflictsWith : FileLockMode → FileLockMode → Bool
  | .Shared, .Shared => false
  | _, _ => true

/-- An open native file handle: its descriptor number and the path it
refers to. -/
structure File where
  fd : Nat
  path : String
deriving DecidableEq, Repr

/-- The subset of `std::fs::OpenOptions` flags used by src/src/lib.rs. -/
structure OpenOptions where
  read : Bool
  write : Bool
  create : Bool
deriving DecidableEq, Repr

/-- The filesystem as seen through `OpenOptions::open`: the set of existing
paths and a counter supplying fresh descriptors. -/
structure FileSystem where
  files : List String
  nextFd : Nat
deriving DecidableEq, Repr

/-- Modelled from the spec: the behavior of `std::fs::OpenOptions::open` at
the interface boundary (the underlying file I/O is delegated to the host
language's standard file-handle abstraction). Opening an existing path
succeeds; opening a missing path succeeds and creates the file when the
`create` flag is set, and otherwise fails with a not-found I/O error. -/
def OpenOptions.openPath (opts : OpenOptions) (fs : FileSystem) (path : String) :
    Except IoError (File × FileSystem) :=
  if fs.files.contains path then
    .ok (⟨fs.nextFd, path⟩, { fs with nextFd := fs.nextFd + 1 })
  else if opts.create then
    .ok (⟨fs.nextFd, path⟩, { files := path :: fs.files, nextFd := fs.nextFd + 1 })
  else
    .error ⟨"No such file or directory"⟩

/-- One entry of the OS advisory lock table: a descriptor holding a lock of
some mode on some path. -/
structure LockEntry where
  fd : Nat
  path : String
  mode : FileLockMode
deriving DecidableEq, Repr

/-- Modelled from the spec: the OS-level advisory lock state shared by all
contenders, plus a counter of native release calls made so far (used to
observe how many times release is attempted). -/
structure OSState where
  entries : List LockEntry
  releaseCalls : Nat
deriving DecidableEq, Repr

/-- Modelled from the spec: the platform lock driver's blocking acquire
(`lock_impl`, defined in the absent `unix`/`windows` modules). It suspends
until the lock becomes available or an unrecoverable error occurs, so its
outcome is an oracle: `none` means the lock was eventually granted and the
table gains this holder's entry; `some e` means an unrecoverable I/O error.
It never reports contention. -/
def lock_impl (outcome : Option IoError) (fd : Nat) (path : String)
    (mode : FileLockMode) (os : OSState) : Except FileLockError OSState :=
  match outcome with
  | some e => .error (.IOError e)
  | none => .ok { os with entries := ⟨fd, path, mode⟩ :: os.entries }

/-- Modelled from the spec: the platform lock driver's non-blocking acquire
(`try_lock_impl`, defined in the absent `unix`/`windows` modules). If the
lock is currently held in a conflicting mode by another descriptor it
returns `AlreadyLocked`; on any other native failure (the `ioFailure`
oracle) it returns `IOError`; otherwise it grants the lock. -/
def try_lock_impl (ioFailure : Option IoError) (fd : Nat) (path : String)
    (mode : FileLockMode) (os : OSState) : Except FileLockError OSState :=
  if os.entries.any fun e => e.fd != fd && e.path == path && e.mode.conflictsWith mode then
    .error .AlreadyLocked
  else
    match ioFailure with
    | some e => .error (.IOError e)
    | none => .ok { os with entries := ⟨fd, path, mode⟩ :: os.entries }

/-- Modelled from the spec: the platform lock driver's release
(`unlock_impl`, defined in the absent `unix`/`windows` modules). The native
release call is always attempted (counted in `releaseCalls`); it fails with
an I/O error exactly when the `ioFailure` oracle says so, and on success
removes this descriptor's entries from the table. -/
def unlock_impl (ioFailure : Option IoError) (fd : Nat) (os : OSState) :
    Except FileLockError Unit × OSState :=
  match ioFailure with
  | some e => (.error (.IOError e), { os with releaseCalls := os.releaseCalls + 1 })
  | none =>
    (.ok (), { entries := os.entries.filter fun e => e.fd != fd,
               releaseCalls := os.releaseCalls + 1 })

/-- The struct `AdvisoryFileLock` from src/src/lib.rs: an owned open file, a
`locked` flag, and the fixed lock mode. -/
structure AdvisoryFileLock where
  file : File
  locked : Bool
  file_lock_mode : FileLockMode
deriving DecidableEq, Repr

/-- The `OpenOptions` built by `AdvisoryFileLock::new` in src/src/lib.rs:
`read(true).create(is_exclusive).write(is_exclusive)` where `is_exclusive`
is `file_lock_mode == FileLockMode::Exclusive`. -/
def AdvisoryFileLock.newOpenOptions (file_lock_mode : FileLockMode) : OpenOptions :=
  let is_exclusive := file_lock_mode == FileLockMode.Exclusive
  ⟨true, is_exclusive, is_exclusive⟩

/-- `AdvisoryFileLock::new` from src/src/lib.rs: opens the path with the
options above and on success returns a handle with `locked = false`; the `?`
on `open` converts an `io::Error` into `FileLockError::IOError`. -/
def AdvisoryFileLock.new (fs : FileSystem) (path : String)
    (file_lock_mode : FileLockMode) :
    Except FileLockError (AdvisoryFileLock × FileSystem) :=
  match (AdvisoryFileLock.newOpenOptions file_lock_mode).openPath fs path with
  | .error e => .error (.IOError e)
  | .ok (file, fs') => .ok (⟨file, false, file_lock_mode⟩, fs')

/-- `AdvisoryFileLock::is_shared` from src/src/lib.rs. -/
def AdvisoryFileLock.is_shared (self : AdvisoryFileLock) : Bool :=
  self.file_lock_mode == FileLockMode.Shared

/-- `AdvisoryFileLock::is_exclusive` from src/src/lib.rs. -/
def AdvisoryFileLock.is_exclusive (self : AdvisoryFileLock) : Bool :=
  self.file_lock_mode == FileLockMode.Exclusive

/-- `AdvisoryFileLock::lock` from src/src/lib.rs: `self.lock_impl()?;
self.locked = true; Ok(())`. The oracle stands for the nondeterministic
outcome of the native blocking call. -/
def AdvisoryFileLock.lock (self : AdvisoryFileLock) (oracle : Option IoError)
    (os : OSState) : Except FileLockError Unit × AdvisoryFileLock × OSState :=
  match lock_impl oracle self.file.fd self.file.path self.file_lock_mode os with
  | .error e => (.error e, self, os)
  | .ok os' => (.ok (), { self with locked := true }, os')

/-- `AdvisoryFileLock::try_lock` from src/src/lib.rs: `self.try_lock_impl()?;
self.locked = true; Ok(())`. -/
def AdvisoryFileLock.try_lock (self : AdvisoryFileLock) (oracle : Option IoError)
    (os : OSState) : Except FileLockError Unit × AdvisoryFileLock × OSState :=
  match try_lock_impl oracle self.file.fd self.file.path self.file_lock_mode os with
  | .error e => (.error e, self, os)
  | .ok os' => (.ok (), { self with locked := true }, os')

/-- `AdvisoryFileLock::unlock` from src/src/lib.rs: `self.unlock_impl()?;
self.locked = false; Ok(())`. -/
def AdvisoryFileLock.unlock (self : AdvisoryFileLock) (oracle : Option IoError)
    (os : OSState) : Except FileLockError Unit × AdvisoryFileLock × OSState :=
  match unlock_impl oracle self.file.fd os with
  | (.error e, os') => (.error e, self, os')
  | (.ok _, os') => (.ok (), { self with locked := false }, os')

/-- `Drop for AdvisoryFileLock` from src/src/lib.rs: if not locked, return;
otherwise call `self.unlock()` and, if it fails, emit the error line.
The returned list is the diagnostic output produced. -/
def AdvisoryFileLock.drop (self : AdvisoryFileLock) (oracle : Option IoError)
    (os : OSState) : AdvisoryFileLock × OSState × List String :=
  if !self.locked then
    (self, os, [])
  else
    match self.unlock oracle os with
    | (.error err, self', os') =>
      (self', os',
        ["[AdvisoryFileLock] unlock_file failed during dropping: " ++ err.description])
    | (.ok _, self', os') => (self', os', [])

/-! Sample concrete values used by the witness theorems. -/

/-- A sample open file. -/
def sampleFile : File := ⟨7, "tmp/data"⟩

/-- A sample handle in Exclusive mode, not locked. -/
def sampleHandle : AdvisoryFileLock := ⟨sampleFile, false, .Exclusive⟩

/-- An OS state with an empty lock table. -/
def emptyOS : OSState := ⟨[], 0⟩

/-- A sample I/O failure fed to the driver oracles. -/
def sampleErr : IoError := ⟨"Input/output error"⟩

/-- C9: the mode predicates `is_shared` and `is_exclusive` are pure total
functions of the stored mode: `is_shared` returns `true` exactly when the
mode is `Shared` and `is_exclusive` exactly when it is `Exclusive`. -/
theorem is_shared_is_exclusive_iff_mode (self : AdvisoryFileLock) :
    (self.is_shared = true ↔ self.file_lock_mode = FileLockMode.Shared) ∧
    (self.is_exclusive = true ↔ self.file_lock_mode = FileLockMode.Exclusive) := by
  constructor <;>
    simp [AdvisoryFileLock.is_shared, AdvisoryFileLock.is_exclusive]

/-- C8: `lock`, `try_lock` and `unlock` modify only the `locked` flag: the
stored mode and the owned file handle of the resulting handle are unchanged,
for every oracle outcome and OS state. -/
theorem ops_preserve_mode_and_file (self : AdvisoryFileLock)
    (oracle : Option IoError) (os : OSState) :
    ((self.lock oracle os).2.1.file_lock_mode = self.file_lock_mode ∧
     (self.lock oracle os).2.1.file = self.file) ∧
    ((self.try_lock oracle os).2.1.file_lock_mode = self.file_lock_mode ∧
     (self.try_lock oracle os).2.1.file = self.file) ∧
    ((self.unlock oracle os).2.1.file_lock_mode = self.file_lock_mode ∧
     (self.unlock oracle os).2.1.file = self.file) := by
  unfold AdvisoryFileLock.lock AdvisoryFileLock.try_lock AdvisoryFileLock.unlock
    lock_impl try_lock_impl unlock_impl
  cases oracle <;> (refine ⟨by simp, ?_, by simp⟩) <;> split <;> simp

/-- C2: the blocking `lock` never returns `AlreadyLocked`: every failure is
an `IOError`, and on success the resulting handle has `locked = true`. -/
theorem lock_never_already_locked (self : AdvisoryFileLock)
    (oracle : Option IoError) (os : OSState) :
    (self.lock oracle os).1 ≠ Except.error FileLockError.AlreadyLocked ∧
    (∀ u self' os', self.lock oracle os = (Except.ok u, self', os') →
      self'.locked = true) := by
  unfold AdvisoryFileLock.lock lock_impl
  cases oracle <;> simp

/-- C2 witness: at a concrete handle and a successful oracle, `lock` does not
return `AlreadyLocked` and sets the `locked` flag. -/
theorem lock_never_already_locked_witness :
    (sampleHandle.lock none emptyOS).1 ≠ Except.error FileLockError.AlreadyLocked ∧
    (sampleHandle.lock none emptyOS).2.1.locked = true :=
  ⟨(lock_never_already_locked sampleHandle none emptyOS).1,
   (lock_never_already_locked sampleHandle none emptyOS).2 () _ _ rfl⟩

/-- C3: `try_lock` on success replaces the handle by the same handle with
`locked := true`; on any failure (contention or I/O) it leaves the handle and
the OS state unchanged, and the error is one of the two taxonomy kinds. -/
theorem try_lock_result (self : AdvisoryFileLock) (oracle : Option IoError)
    (os : OSState) :
    (∀ u self' os', self.try_lock oracle os = (Except.ok u, self', os') →
      self' = { self with locked := true }) ∧
    (∀ e self' os', self.try_lock oracle os = (Except.error e, self', os') →
      self' = self ∧ os' = os ∧
      (e = FileLockError.AlreadyLocked ∨ ∃ d, e = FileLockError.IOError d)) := by
  unfold AdvisoryFileLock.try_lock try_lock_impl
  by_cases hc : (os.entries.any fun e =>
      e.fd != self.file.fd && e.path == self.file.path &&
      e.mode.conflictsWith self.file_lock_mode) = true
  · simp [hc]
  · cases oracle <;> simp [hc]

/-- C3 witness: at concrete inputs, a successful `try_lock` sets the flag and
a failing one leaves the handle unchanged. -/
theorem try_lock_result_witness :
    (sampleHandle.try_lock none emptyOS).2.1 = { sampleHandle with locked := true } ∧
    (sampleHandle.try_lock (some sampleErr) emptyOS).2.1 = sampleHandle :=
  ⟨(try_lock_result sampleHandle none emptyOS).1 () _ _ rfl,
   ((try_lock_result sampleHandle (some sampleErr) emptyOS).2 _ _ _ rfl).1⟩

/-- C4: `unlock` on success replaces the handle by the same handle with
`locked := false`; on failure it signals an `IOError` and leaves the handle
(hence the `locked` flag) unchanged. -/
theorem unlock_result (self : AdvisoryFileLock) (oracle : Option IoError)
    (os : OSState) :
    (∀ u self' os', self.unlock oracle os = (Except.ok u, self', os') →
      self' = { self with locked := false }) ∧
    (∀ e self' os', self.unlock oracle os = (Except.error e, self', os') →
      self' = self ∧ ∃ d, e = FileLockError.IOError d) := by
  unfold AdvisoryFileLock.unlock unlock_impl
  cases oracle <;> simp

/-- C4 witness: at concrete inputs, a successful `unlock` clears the flag and
a failing one leaves the handle unchanged with an `IOError`. -/
theorem unlock_result_witness :
    (sampleHandle.unlock none emptyOS).2.1 = { sampleHandle with locked := false } ∧
    (sampleHandle.unlock (some sampleErr) emptyOS).2.1 = sampleHandle :=
  ⟨(unlock_result sampleHandle none emptyOS).1 () _ _ rfl,
   ((unlock_result sampleHandle (some sampleErr) emptyOS).2 _ _ _ rfl).1⟩

/-- A sample handle that currently holds its lock (`locked = true`). -/
def sampleLockedHandle : AdvisoryFileLock := ⟨sampleFile, true, .Exclusive⟩

/-- C1: destruction releases exactly once and never fails. If `locked` is
false, `drop` makes no release call (the OS state, including the release-call
counter, is untouched) and emits no diagnostic line. If `locked` is true,
exactly one native release call is attempted; a failing release is reported
as a single diagnostic line rather than propagated (the `drop` result carries
no error), and a successful release emits nothing. -/
theorem drop_release_exactly_once (self : AdvisoryFileLock)
    (oracle : Option IoError) (os : OSState) :
    (self.locked = false →
      (self.drop oracle os).2.1 = os ∧ (self.drop oracle os).2.2 = []) ∧
    (self.locked = true →
      (self.drop oracle os).2.1.releaseCalls = os.releaseCalls + 1 ∧
      (∀ e, oracle = some e →
        (self.drop oracle os).2.2 =
          ["[AdvisoryFileLock] unlock_file failed during dropping: " ++
            (FileLockError.IOError e).description]) ∧
      (oracle = none → (self.drop oracle os).2.2 = [])) := by
  unfold AdvisoryFileLock.drop AdvisoryFileLock.unlock unlock_impl
  cases hl : self.locked <;> cases oracle <;> simp

/-- C1 witness: dropping a never-locked handle emits nothing and leaves the
OS state alone; dropping a locked handle whose release fails makes exactly
one release attempt and emits the diagnostic line. -/
theorem drop_release_exactly_once_witness :
    (sampleHandle.drop none emptyOS).2.1 = emptyOS ∧
    (sampleHandle.drop none emptyOS).2.2 = [] ∧
    (sampleLockedHandle.drop (some sampleErr) emptyOS).2.1.releaseCalls =
      emptyOS.releaseCalls + 1 ∧
    (sampleLockedHandle.drop (some sampleErr) emptyOS).2.2 =
      ["[AdvisoryFileLock] unlock_file failed during dropping: " ++
        (FileLockError.IOError sampleErr).description] :=
  ⟨((drop_release_exactly_once sampleHandle none emptyOS).1 rfl).1,
   ((drop_release_exactly_once sampleHandle none emptyOS).1 rfl).2,
   ((drop_release_exactly_once sampleLockedHandle (some sampleErr) emptyOS).2 rfl).1,
   ((drop_release_exactly_once sampleLockedHandle (some sampleErr) emptyOS).2
      rfl).2.1 sampleErr rfl⟩

/-- C10: `unlock` is not guarded by the `locked` flag. Even when `locked` is
false it still performs the native release call (the release counter grows by
one), and when that native call succeeds it returns success with `locked`
still false; destruction of the same never-locked handle, by contrast,
performs no release call at all. -/
theorem unlock_unguarded_when_not_locked (self : AdvisoryFileLock)
    (oracle : Option IoError) (os : OSState) (h : self.locked = false) :
    (self.unlock oracle os).2.2.releaseCalls = os.releaseCalls + 1 ∧
    (oracle = none →
      (self.unlock oracle os).1 = Except.ok () ∧
      (self.unlock oracle os).2.1.locked = false) ∧
    (self.drop oracle os).2.1.releaseCalls = os.releaseCalls := by
  unfold AdvisoryFileLock.unlock AdvisoryFileLock.drop unlock_impl
  cases oracle <;> simp [h, AdvisoryFileLock.unlock, unlock_impl]

/-- C10 witness: at a concrete never-locked handle with a succeeding native
release, `unlock` makes the release call and returns success with `locked`
false, while `drop` makes none. -/
theorem unlock_unguarded_when_not_locked_witness :
    (sampleHandle.unlock none emptyOS).2.2.releaseCalls = emptyOS.releaseCalls + 1 ∧
    (sampleHandle.unlock none emptyOS).1 = Except.ok () ∧
    (sampleHandle.unlock none emptyOS).2.1.locked = false ∧
    (sampleHandle.drop none emptyOS).2.1.releaseCalls = emptyOS.releaseCalls :=
  ⟨(unlock_unguarded_when_not_locked sampleHandle none emptyOS rfl).1,
   ((unlock_unguarded_when_not_locked sampleHandle none emptyOS rfl).2.1 rfl).1,
   ((unlock_unguarded_when_not_locked sampleHandle none emptyOS rfl).2.1 rfl).2,
   (unlock_unguarded_when_not_locked sampleHandle none emptyOS rfl).2.2⟩

/-- C5: the open flags are determined solely by the mode — Exclusive opens
with read, write and create-if-absent; Shared opens read-only without
creating — and consequently, on a path that does not exist, construction in
Shared mode fails with an `IOError` while construction in Exclusive mode
succeeds and creates the file. -/
theorem new_open_flags_and_missing_path (fs : FileSystem) (path : String)
    (hmiss : fs.files.contains path = false) :
    AdvisoryFileLock.newOpenOptions FileLockMode.Exclusive = ⟨true, true, true⟩ ∧
    AdvisoryFileLock.newOpenOptions FileLockMode.Shared = ⟨true, false, false⟩ ∧
    (∃ d, AdvisoryFileLock.new fs path FileLockMode.Shared =
      Except.error (FileLockError.IOError d)) ∧
    (∃ h' fs', AdvisoryFileLock.new fs path FileLockMode.Exclusive =
      Except.ok (h', fs') ∧ fs'.files.contains path = true) := by
  have hmiss' : path ∉ fs.files := by simpa using hmiss
  refine ⟨rfl, rfl, ?_, ?_⟩
  · simp [AdvisoryFileLock.new, AdvisoryFileLock.newOpenOptions,
      OpenOptions.openPath, hmiss']
  · simp [AdvisoryFileLock.new, AdvisoryFileLock.newOpenOptions,
      OpenOptions.openPath, hmiss']
    exact ⟨_, _, ⟨rfl, rfl⟩, List.mem_cons_self _ _⟩

/-- C5 witness: on a concrete empty filesystem and path, Shared construction
fails with an `IOError` and Exclusive construction succeeds, creating the
file. -/
theorem new_open_flags_and_missing_path_witness :
    (∃ d, AdvisoryFileLock.new ⟨[], 0⟩ "tmp/data" FileLockMode.Shared =
      Except.error (FileLockError.IOError d)) ∧
    (∃ h' fs', AdvisoryFileLock.new ⟨[], 0⟩ "tmp/data" FileLockMode.Exclusive =
      Except.ok (h', fs') ∧ fs'.files.contains "tmp/data" = true) :=
  ⟨(new_open_flags_and_missing_path ⟨[], 0⟩ "tmp/data" rfl).2.2.1,
   (new_open_flags_and_missing_path ⟨[], 0⟩ "tmp/data" rfl).2.2.2⟩

/-- C6: construction either returns a ready handle with `locked = false` and
the requested mode stored (no lock requested), or fails with an `IOError`;
the `AlreadyLocked` error can never be returned by construction. -/
theorem new_ready_or_ioerror (fs : FileSystem) (path : String)
    (m : FileLockMode) :
    (∀ h' fs', AdvisoryFileLock.new fs path m = Except.ok (h', fs') →
      h'.locked = false ∧ h'.file_lock_mode = m) ∧
    (∀ e, AdvisoryFileLock.new fs path m = Except.error e →
      e ≠ FileLockError.AlreadyLocked ∧ ∃ d, e = FileLockError.IOError d) := by
  unfold AdvisoryFileLock.new
  cases hopen : (AdvisoryFileLock.newOpenOptions m).openPath fs path with
  | error e => simp
  | ok p => cases p with
    | mk file fs' => simp

/-- C6 witness: at concrete inputs, a successful construction yields
`locked = false`, and a failing one yields an `IOError`, never
`AlreadyLocked`. -/
theorem new_ready_or_ioerror_witness :
    AdvisoryFileLock.new ⟨["tmp/data"], 0⟩ "tmp/data" FileLockMode.Shared =
      Except.ok (⟨⟨0, "tmp/data"⟩, false, FileLockMode.Shared⟩, ⟨["tmp/data"], 1⟩) ∧
    (⟨⟨0, "tmp/data"⟩, false, FileLockMode.Shared⟩ : AdvisoryFileLock).locked = false ∧
    FileLockError.IOError ⟨"No such file or directory"⟩ ≠ FileLockError.AlreadyLocked :=
  ⟨rfl,
   ((new_ready_or_ioerror ⟨["tmp/data"], 0⟩ "tmp/data" FileLockMode.Shared).1
      _ _ rfl).1,
   ((new_ready_or_ioerror ⟨[], 0⟩ "tmp/data" FileLockMode.Shared).2
      (FileLockError.IOError ⟨"No such file or directory"⟩) rfl).1⟩

/-- C7: while a handle that has successfully `lock()`-ed a path in Exclusive
mode remains locked, any other handle's `try_lock` on the same path in
Exclusive mode fails with `AlreadyLocked`, leaving that handle and the OS
state unchanged. -/
theorem exclusive_excludes_exclusive_try_lock
    (A B : AdvisoryFileLock) (oA oB : Option IoError) (os0 os1 : OSState)
    (A' : AdvisoryFileLock) (u : Unit)
    (hA : A.file_lock_mode = FileLockMode.Exclusive)
    (hB : B.file_lock_mode = FileLockMode.Exclusive)
    (hpath : B.file.path = A.file.path)
    (hfd : B.file.fd ≠ A.file.fd)
    (hlock : A.lock oA os0 = (Except.ok u, A', os1)) :
    B.try_lock oB os1 = (Except.error FileLockError.AlreadyLocked, B, os1) := by
  unfold AdvisoryFileLock.lock lock_impl at hlock
  cases oA with
  | some e => simp at hlock
  | none =>
    simp only [Prod.mk.injEq] at hlock
    obtain ⟨-, -, hos⟩ := hlock
    have hfd' : (A.file.fd != B.file.fd) = true :=
      bne_iff_ne.mpr (Ne.symm hfd)
    unfold AdvisoryFileLock.try_lock try_lock_impl
    rw [← hos]
    simp [List.any_cons, hfd', hpath, hA, hB, FileLockMode.conflictsWith]

/-- A second sample handle on the same path with a different descriptor. -/
def contenderHandle : AdvisoryFileLock := ⟨⟨8, "tmp/data"⟩, false, .Exclusive⟩

/-- C7 witness: after a concrete handle has successfully locked its path in
Exclusive mode, a concrete contender's `try_lock` on that path in Exclusive
mode fails with `AlreadyLocked`. -/
theorem exclusive_excludes_exclusive_try_lock_witness :
    contenderHandle.try_lock none ⟨[⟨7, "tmp/data", FileLockMode.Exclusive⟩], 0⟩ =
      (Except.error FileLockError.AlreadyLocked, contenderHandle,
        ⟨[⟨7, "tmp/data", FileLockMode.Exclusive⟩], 0⟩) :=
  exclusive_excludes_exclusive_try_lock sampleHandle contenderHandle none none
    emptyOS ⟨[⟨7, "tmp/data", FileLockMode.Exclusive⟩], 0⟩
    ⟨⟨7, "tmp/data"⟩, true, FileLockMode.Exclusive⟩ () rfl rfl rfl
    (by decide) rfl
